import Mathlib

/-!
Shallow embedding of the render-command subsystem of `bevy_aabb_instancing`
(`src/vertex_pulling/draw.rs`).

Each bevy `RenderCommand` / `EntityRenderCommand` implementation becomes a
Lean function taking its system parameters and a `TrackedRenderPass` and
returning `Option (TrackedRenderPass × RenderCommandResult)`:
- `some (pass, result)` models a normal return with the updated pass state;
- `none` models a Rust panic (an `.unwrap()` on a missing value).

GPU handles (pipelines, bind groups, buffers) are modelled as opaque
identifiers (`Nat`); the `TrackedRenderPass` records the sequence of
operations issued to it.
-/

namespace BevyAabbInstancing

/-- Result type of a bevy render command, mirrored from
`bevy::render::render_phase::RenderCommandResult`. -/
inductive RenderCommandResult where
  | Success
  | Failure
deriving DecidableEq, Repr

/-- Render-world entity identifier (opaque). -/
abbrev Entity := Nat

/-- Opaque handle to a GPU bind group. -/
abbrev BindGroup := Nat

/-- Identifier of a cached render pipeline. -/
abbrev CachedRenderPipelineId := Nat

/-- Opaque handle to a compiled render pipeline object. -/
abbrev RenderPipeline := Nat

/-- Index formats of `wgpu::IndexFormat`. -/
inductive IndexFormat where
  | Uint16
  | Uint32
deriving DecidableEq, Repr

/-- A GPU buffer: an opaque identity plus its byte size. -/
structure Buffer where
  id : Nat
  size : Nat
deriving DecidableEq, Repr

/-- A slice of a GPU buffer: the buffer identity and a byte range. -/
structure BufferSlice where
  buffer : Nat
  start : Nat
  len : Nat
deriving DecidableEq, Repr

/-- `buffer.slice(..)` in wgpu: the full range of the buffer. -/
def Buffer.slice_full (b : Buffer) : BufferSlice :=
  { buffer := b.id, start := 0, len := b.size }

/-- One operation recorded on a `TrackedRenderPass`, mirroring the calls made
in `draw.rs`: `set_render_pipeline`, `set_bind_group`, `set_index_buffer`
and `draw_indexed`. -/
inductive PassOp where
  | setRenderPipeline (pipeline : RenderPipeline)
  | setBindGroup (index : Nat) (bind_group : BindGroup) (dynamic_offsets : List Nat)
  | setIndexBuffer (slice : BufferSlice) (offset : Nat) (format : IndexFormat)
  | drawIndexed (indices_start : Nat) (indices_end : Nat) (base_vertex : Int)
      (instances_start : Nat) (instances_end : Nat)
deriving DecidableEq, Repr

/-- The render pass, modelled as the list of operations recorded on it so
far, in order. -/
structure TrackedRenderPass where
  ops : List PassOp
deriving DecidableEq, Repr

/-- Record one more operation on the pass. -/
def TrackedRenderPass.push (p : TrackedRenderPass) (op : PassOp) : TrackedRenderPass :=
  { ops := p.ops ++ [op] }

/-- The bevy `PipelineCache` resource, as used by `draw.rs`: a lookup from
pipeline id to a compiled pipeline, `none` while compilation has not
finished. -/
structure PipelineCache where
  get_render_pipeline : CachedRenderPipelineId → Option RenderPipeline

/-- Modelled from the spec: the `CuboidsPipeline` resource lives in
`src/vertex_pulling/pipeline.rs`, which is not among the provided sources;
`draw.rs` reads only its `pipeline_id` field. -/
structure CuboidsPipeline where
  pipeline_id : CachedRenderPipelineId

/-- `ViewMeta` from `draw.rs`: per-frame state holding an optional view bind
group. -/
structure ViewMeta where
  cuboids_view_bind_group : Option BindGroup
deriving DecidableEq, Repr

/-- `#[derive(Default)]` on `ViewMeta`: the optional bind group defaults to
`None`. -/
def ViewMeta.default : ViewMeta :=
  { cuboids_view_bind_group := none }

/-- `ClippingPlanesMeta` from `draw.rs`: per-frame state holding an optional
clipping-planes bind group. -/
structure ClippingPlanesMeta where
  bind_group : Option BindGroup
deriving DecidableEq, Repr

/-- `#[derive(Default)]` on `ClippingPlanesMeta`: the optional bind group
defaults to `None`. -/
def ClippingPlanesMeta.default : ClippingPlanesMeta :=
  { bind_group := none }

/-- `bevy::render::view::ViewUniformOffset`: the dynamic offset of a view's
uniforms in the shared view uniform buffer. -/
structure ViewUniformOffset where
  offset : Nat
deriving DecidableEq, Repr

/-- Modelled from the spec: `GpuCuboidBuffers` lives in
`src/vertex_pulling/buffer_cache.rs`, which is not among the provided
sources; `draw.rs` reads its `transform_index`, `instance_buffer_bind_group`
and `num_cuboids` fields through `entry.buffers()`. -/
structure GpuCuboidBuffers where
  transform_index : Nat
  instance_buffer_bind_group : BindGroup
  num_cuboids : Nat
deriving DecidableEq, Repr

/-- Modelled from the spec: a `BufferCache` entry (`buffer_cache.rs` is not
among the provided sources); `draw.rs` only calls its `buffers()` accessor. -/
structure BufferCacheEntry where
  buffers : GpuCuboidBuffers
deriving DecidableEq, Repr

/-- Modelled from the spec: the `BufferCache` interface used by `draw.rs`
(`buffer_cache.rs` is not among the provided sources): `get(entity)` returns
the entry prepared for a render entity, if any, and
`transform_buffer_bind_group()` exposes the shared transform bind group
built during preparation. -/
structure BufferCache where
  get : Entity → Option BufferCacheEntry
  transform_buffer_bind_group : Option BindGroup

/-- Modelled from the spec: the `CuboidsIndexBuffer` resource interface used
by `draw.rs` (`index_buffer.rs` is not among the provided sources): its
`buffer()` accessor returns the shared uploaded index buffer, if any. -/
structure CuboidsIndexBuffer where
  buffer : Option Buffer

/-- Modelled from the spec: `num_indices_for_cuboids` lives in
`src/vertex_pulling/index_buffer.rs`, which is not among the provided
sources; the spec states `num_indices_for(n_cuboids) = 36 * n_cuboids`
(12 triangles per box, 3 indices per triangle). -/
def num_indices_for_cuboids (num_cuboids : Nat) : Nat :=
  36 * num_cuboids

/-- `SetCuboidsPipeline::render` from `draw.rs`: look the cuboids pipeline up
in the pipeline cache; if compiled, set it on the pass and return `Success`,
otherwise return `Failure`. -/
def SetCuboidsPipeline.render (pipeline_cache : PipelineCache)
    (cuboids_pipeline : CuboidsPipeline) (pass : TrackedRenderPass) :
    Option (TrackedRenderPass × RenderCommandResult) :=
  match pipeline_cache.get_render_pipeline cuboids_pipeline.pipeline_id with
  | some pipeline => some (pass.push (.setRenderPipeline pipeline), .Success)
  | none => some (pass, .Failure)

/-- `SetCuboidsViewBindGroup::<I>::render` from `draw.rs`: unwrap the view's
uniform offset from the view query, unwrap the view bind group from
`ViewMeta`, bind it at slot `I` with the view uniform offset as the single
dynamic offset, and return `Success`. -/
def SetCuboidsViewBindGroup.render (I : Nat) (view_meta : ViewMeta)
    (view_query : Entity → Option ViewUniformOffset) (view : Entity)
    (pass : TrackedRenderPass) :
    Option (TrackedRenderPass × RenderCommandResult) :=
  match view_query view with
  | none => none
  | some view_uniform_offset =>
    match view_meta.cuboids_view_bind_group with
    | none => none
    | some bind_group =>
      some (pass.push (.setBindGroup I bind_group [view_uniform_offset.offset]),
        .Success)

/-- `SetClippingPlanesBindGroup::<I>::render` from `draw.rs`: unwrap the
clipping-planes bind group from `ClippingPlanesMeta`, bind it at slot `I`
with no dynamic offsets, and return `Success`. -/
def SetClippingPlanesBindGroup.render (I : Nat)
    (clipping_meta : ClippingPlanesMeta) (pass : TrackedRenderPass) :
    Option (TrackedRenderPass × RenderCommandResult) :=
  match clipping_meta.bind_group with
  | none => none
  | some bind_group =>
    some (pass.push (.setBindGroup I bind_group []), .Success)

/-- `SetGpuTransformBufferBindGroup::<I>::render` from `draw.rs`: unwrap the
drawn entity's cache entry, unwrap the shared transform bind group, bind it
at slot `I` with the entry's `transform_index` as the single dynamic offset,
and return `Success`. -/
def SetGpuTransformBufferBindGroup.render (I : Nat) (item : Entity)
    (buffer_cache : BufferCache) (pass : TrackedRenderPass) :
    Option (TrackedRenderPass × RenderCommandResult) :=
  match buffer_cache.get item with
  | none => none
  | some entry =>
    match buffer_cache.transform_buffer_bind_group with
    | none => none
    | some bind_group =>
      some (pass.push (.setBindGroup I bind_group [entry.buffers.transform_index]),
        .Success)

/-- `SetGpuCuboidBuffersBindGroup::<I>::render` from `draw.rs`: unwrap the
drawn entity's cache entry, bind its instance-buffer bind group at slot `I`
with no dynamic offsets, and return `Success`. -/
def SetGpuCuboidBuffersBindGroup.render (I : Nat) (item : Entity)
    (buffer_cache : BufferCache) (pass : TrackedRenderPass) :
    Option (TrackedRenderPass × RenderCommandResult) :=
  match buffer_cache.get item with
  | none => none
  | some entry =>
    some (pass.push (.setBindGroup I entry.buffers.instance_buffer_bind_group []),
      .Success)

/-- `DrawVertexPulledCuboids::render` from `draw.rs`: unwrap the drawn
entity's cache entry, compute the index count from its cuboid count, unwrap
the shared index buffer, set it (full slice, byte offset 0, `Uint32`), issue
one indexed draw of `0..num_indices` with base vertex 0 and instance range
`0..1`, and return `Success`. -/
def DrawVertexPulledCuboids.render (item : Entity) (buffer_cache : BufferCache)
    (index_buffer : CuboidsIndexBuffer) (pass : TrackedRenderPass) :
    Option (TrackedRenderPass × RenderCommandResult) :=
  match buffer_cache.get item with
  | none => none
  | some entry =>
    let num_indices := num_indices_for_cuboids entry.buffers.num_cuboids
    match index_buffer.buffer with
    | none => none
    | some buf =>
      some (((pass.push (.setIndexBuffer buf.slice_full 0 .Uint32)).push
        (.drawIndexed 0 num_indices 0 0 1)), .Success)

/-- The six command variants that appear in the `DrawCuboids` type alias in
`draw.rs`, with their const slot parameter where they have one. -/
inductive CuboidsCommand where
  | setCuboidsPipeline
  | setCuboidsViewBindGroup (I : Nat)
  | setClippingPlanesBindGroup (I : Nat)
  | setGpuTransformBufferBindGroup (I : Nat)
  | setGpuCuboidBuffersBindGroup (I : Nat)
  | drawVertexPulledCuboids
deriving DecidableEq, Repr

/-- The system parameters available to the commands of the chain. -/
structure RenderParams where
  pipeline_cache : PipelineCache
  cuboids_pipeline : CuboidsPipeline
  view_meta : ViewMeta
  view_query : Entity → Option ViewUniformOffset
  clipping_meta : ClippingPlanesMeta
  buffer_cache : BufferCache
  index_buffer : CuboidsIndexBuffer

/-- Dispatch one command of the chain to its `render` function. -/
def CuboidsCommand.render (c : CuboidsCommand) (params : RenderParams)
    (view : Entity) (item : Entity) (pass : TrackedRenderPass) :
    Option (TrackedRenderPass × RenderCommandResult) :=
  match c with
  | .setCuboidsPipeline =>
    SetCuboidsPipeline.render params.pipeline_cache params.cuboids_pipeline pass
  | .setCuboidsViewBindGroup I =>
    SetCuboidsViewBindGroup.render I params.view_meta params.view_query view pass
  | .setClippingPlanesBindGroup I =>
    SetClippingPlanesBindGroup.render I params.clipping_meta pass
  | .setGpuTransformBufferBindGroup I =>
    SetGpuTransformBufferBindGroup.render I item params.buffer_cache pass
  | .setGpuCuboidBuffersBindGroup I =>
    SetGpuCuboidBuffersBindGroup.render I item params.buffer_cache pass
  | .drawVertexPulledCuboids =>
    DrawVertexPulledCuboids.render item params.buffer_cache params.index_buffer pass

/-- The `DrawCuboids` tuple type alias from `draw.rs` as an ordered command
sequence. -/
def DrawCuboids : List CuboidsCommand :=
  [.setCuboidsPipeline,
   .setCuboidsViewBindGroup 0,
   .setClippingPlanesBindGroup 1,
   .setGpuTransformBufferBindGroup 2,
   .setGpuCuboidBuffersBindGroup 3,
   .drawVertexPulledCuboids]

/-- Execution of a command sequence, mirroring bevy's `RenderCommand`
implementation for tuples: run each command in order, stopping with
`Failure` as soon as one fails; a panic (`none`) aborts everything. -/
def runCommands (params : RenderParams) (view : Entity) (item : Entity) :
    List CuboidsCommand → TrackedRenderPass →
    Option (TrackedRenderPass × RenderCommandResult)
  | [], pass => some (pass, .Success)
  | c :: rest, pass =>
    match c.render params view item pass with
    | none => none
    | some (pass1, .Failure) => some (pass1, .Failure)
    | some (pass1, .Success) => runCommands params view item rest pass1

/-- C2: for every cuboid count `n ≥ 0`, `num_indices_for_cuboids n` equals
`36 * n`, the index count used by the indexed draw call for an entity with
`n` cuboids. -/
theorem num_indices_for_cuboids_eq (n : Nat) :
    num_indices_for_cuboids n = 36 * n :=
  rfl

/-- C1: for a drawable entity with a prepared `BufferCache` entry (and the
shared index buffer uploaded), `DrawVertexPulledCuboids` binds the shared
index buffer as a full slice at byte offset 0 in `Uint32` format, issues
exactly one indexed draw spanning
`num_indices_for_cuboids entry.buffers.num_cuboids` indices starting at
index 0 with instance range `0..1`, and returns `Success`. -/
theorem drawVertexPulledCuboids_draw (buffer_cache : BufferCache)
    (index_buffer : CuboidsIndexBuffer) (item : Entity)
    (pass : TrackedRenderPass) (entry : BufferCacheEntry) (buf : Buffer)
    (hentry : buffer_cache.get item = some entry)
    (hbuf : index_buffer.buffer = some buf) :
    DrawVertexPulledCuboids.render item buffer_cache index_buffer pass =
      some (⟨pass.ops ++
        [.setIndexBuffer ⟨buf.id, 0, buf.size⟩ 0 .Uint32,
         .drawIndexed 0 (num_indices_for_cuboids entry.buffers.num_cuboids) 0 0 1]⟩,
        .Success) := by
  simp [DrawVertexPulledCuboids.render, hentry, hbuf, TrackedRenderPass.push,
    Buffer.slice_full]

/-- Witness for C1 at a concrete cache with 2 cuboids: the draw spans
`72 = 36 * 2` indices. -/
theorem drawVertexPulledCuboids_draw_witness :
    DrawVertexPulledCuboids.render 5
      ⟨fun _ => some ⟨⟨16, 7, 2⟩⟩, some 9⟩ ⟨some ⟨3, 288⟩⟩ ⟨[]⟩ =
      some (⟨[.setIndexBuffer ⟨3, 0, 288⟩ 0 .Uint32, .drawIndexed 0 72 0 0 1]⟩,
        .Success) := by
  have h := drawVertexPulledCuboids_draw
    ⟨fun _ => some ⟨⟨16, 7, 2⟩⟩, some 9⟩ ⟨some ⟨3, 288⟩⟩ 5 ⟨[]⟩
    ⟨⟨16, 7, 2⟩⟩ ⟨3, 288⟩ rfl rfl
  simpa [num_indices_for_cuboids] using h

/-- C3: `SetCuboidsPipeline` returns `Failure` with no other effect on the
pass when the pipeline cache has no compiled pipeline for the cuboids
pipeline id, and when the pipeline is available it sets that pipeline on the
pass and returns `Success`. -/
theorem setCuboidsPipeline_cases (pipeline_cache : PipelineCache)
    (cuboids_pipeline : CuboidsPipeline) (pass : TrackedRenderPass) :
    (pipeline_cache.get_render_pipeline cuboids_pipeline.pipeline_id = none →
      SetCuboidsPipeline.render pipeline_cache cuboids_pipeline pass =
        some (pass, .Failure)) ∧
    (∀ p : RenderPipeline,
      pipeline_cache.get_render_pipeline cuboids_pipeline.pipeline_id = some p →
      SetCuboidsPipeline.render pipeline_cache cuboids_pipeline pass =
        some (pass.push (.setRenderPipeline p), .Success)) := by
  constructor
  · intro h
    simp [SetCuboidsPipeline.render, h]
  · intro p h
    simp [SetCuboidsPipeline.render, h]

/-- Witness for C3: a cache that misses yields `Failure` on an unchanged
pass; a cache that hits sets the pipeline and succeeds. -/
theorem setCuboidsPipeline_cases_witness :
    SetCuboidsPipeline.render ⟨fun _ => none⟩ ⟨0⟩ ⟨[]⟩ = some (⟨[]⟩, .Failure) ∧
    SetCuboidsPipeline.render ⟨fun _ => some 4⟩ ⟨0⟩ ⟨[]⟩ =
      some (⟨[.setRenderPipeline 4]⟩, .Success) :=
  ⟨(setCuboidsPipeline_cases ⟨fun _ => none⟩ ⟨0⟩ ⟨[]⟩).1 rfl,
   (setCuboidsPipeline_cases ⟨fun _ => some 4⟩ ⟨0⟩ ⟨[]⟩).2 4 rfl⟩

/-- C4: the `DrawCuboids` chain is exactly the six steps — pipeline, view
bind group at slot 0, clipping-planes bind group at slot 1, transform bind
group at slot 2, instance-buffer bind group at slot 3, indexed draw — in
exactly this order, and a fully prepared execution records exactly those
operations on the pass in that order. -/
theorem drawCuboids_chain (params : RenderParams) (view : Entity)
    (item : Entity) (p : RenderPipeline) (vuo : ViewUniformOffset)
    (vbg : BindGroup) (cbg : BindGroup) (tbg : BindGroup)
    (entry : BufferCacheEntry) (buf : Buffer)
    (hp : params.pipeline_cache.get_render_pipeline
      params.cuboids_pipeline.pipeline_id = some p)
    (hvq : params.view_query view = some vuo)
    (hvbg : params.view_meta.cuboids_view_bind_group = some vbg)
    (hcbg : params.clipping_meta.bind_group = some cbg)
    (hentry : params.buffer_cache.get item = some entry)
    (htbg : params.buffer_cache.transform_buffer_bind_group = some tbg)
    (hbuf : params.index_buffer.buffer = some buf) :
    DrawCuboids =
      [.setCuboidsPipeline, .setCuboidsViewBindGroup 0,
       .setClippingPlanesBindGroup 1, .setGpuTransformBufferBindGroup 2,
       .setGpuCuboidBuffersBindGroup 3, .drawVertexPulledCuboids] ∧
    runCommands params view item DrawCuboids ⟨[]⟩ =
      some (⟨[.setRenderPipeline p,
              .setBindGroup 0 vbg [vuo.offset],
              .setBindGroup 1 cbg [],
              .setBindGroup 2 tbg [entry.buffers.transform_index],
              .setBindGroup 3 entry.buffers.instance_buffer_bind_group [],
              .setIndexBuffer buf.slice_full 0 .Uint32,
              .drawIndexed 0 (num_indices_for_cuboids entry.buffers.num_cuboids)
                0 0 1]⟩,
            .Success) := by
  refine ⟨rfl, ?_⟩
  simp [runCommands, DrawCuboids, CuboidsCommand.render,
    SetCuboidsPipeline.render, SetCuboidsViewBindGroup.render,
    SetClippingPlanesBindGroup.render, SetGpuTransformBufferBindGroup.render,
    SetGpuCuboidBuffersBindGroup.render, DrawVertexPulledCuboids.render,
    TrackedRenderPass.push, hp, hvq, hvbg, hcbg, hentry, htbg, hbuf]

/-- Witness for C4 at a fully prepared concrete environment with 3 cuboids:
the chain records the seven pass operations in order and succeeds. -/
theorem drawCuboids_chain_witness :
    runCommands
      ⟨⟨fun _ => some 4⟩, ⟨0⟩, ⟨some 10⟩, fun _ => some ⟨64⟩, ⟨some 11⟩,
       ⟨fun _ => some ⟨⟨5, 12, 3⟩⟩, some 13⟩, ⟨some ⟨2, 1080⟩⟩⟩
      0 5 DrawCuboids ⟨[]⟩ =
      some (⟨[.setRenderPipeline 4,
              .setBindGroup 0 10 [64],
              .setBindGroup 1 11 [],
              .setBindGroup 2 13 [5],
              .setBindGroup 3 12 [],
              .setIndexBuffer ⟨2, 0, 1080⟩ 0 .Uint32,
              .drawIndexed 0 108 0 0 1]⟩, .Success) := by
  have h := (drawCuboids_chain
    ⟨⟨fun _ => some 4⟩, ⟨0⟩, ⟨some 10⟩, fun _ => some ⟨64⟩, ⟨some 11⟩,
     ⟨fun _ => some ⟨⟨5, 12, 3⟩⟩, some 13⟩, ⟨some ⟨2, 1080⟩⟩⟩
    0 5 4 ⟨64⟩ 10 11 13 ⟨⟨5, 12, 3⟩⟩ ⟨2, 1080⟩
    rfl rfl rfl rfl rfl rfl rfl).2
  simpa [num_indices_for_cuboids, Buffer.slice_full] using h

/-- C5: the draw-phase `BufferCache` lookups are unwrapped: with no entry
for the drawn entity, each of the three commands that use the cache panics
(no result) rather than returning a recoverable `Failure`; when the
preparation phase populated the entry, the shared transform bind group and
the index buffer, the panic branch of those unwraps is unreachable. -/
theorem bufferCache_lookup_unwraps (buffer_cache : BufferCache)
    (index_buffer : CuboidsIndexBuffer) (item : Entity)
    (pass : TrackedRenderPass) (It : Nat) (Ib : Nat) :
    (buffer_cache.get item = none →
      SetGpuTransformBufferBindGroup.render It item buffer_cache pass = none ∧
      SetGpuCuboidBuffersBindGroup.render Ib item buffer_cache pass = none ∧
      DrawVertexPulledCuboids.render item buffer_cache index_buffer pass = none) ∧
    (∀ (entry : BufferCacheEntry) (tbg : BindGroup) (buf : Buffer),
      buffer_cache.get item = some entry →
      buffer_cache.transform_buffer_bind_group = some tbg →
      index_buffer.buffer = some buf →
      (SetGpuTransformBufferBindGroup.render It item buffer_cache pass).isSome ∧
      (SetGpuCuboidBuffersBindGroup.render Ib item buffer_cache pass).isSome ∧
      (DrawVertexPulledCuboids.render item buffer_cache index_buffer pass).isSome) := by
  constructor
  · intro h
    refine ⟨?_, ?_, ?_⟩
    · simp [SetGpuTransformBufferBindGroup.render, h]
    · simp [SetGpuCuboidBuffersBindGroup.render, h]
    · simp [DrawVertexPulledCuboids.render, h]
  · intro entry tbg buf hentry htbg hbuf
    refine ⟨?_, ?_, ?_⟩
    · simp [SetGpuTransformBufferBindGroup.render, hentry, htbg]
    · simp [SetGpuCuboidBuffersBindGroup.render, hentry]
    · simp [DrawVertexPulledCuboids.render, hentry, hbuf]

/-- Witness for C5: an empty cache makes all three commands panic; a
populated cache (with transform bind group and index buffer present) makes
none of them panic. -/
theorem bufferCache_lookup_unwraps_witness :
    (SetGpuTransformBufferBindGroup.render 2 5 ⟨fun _ => none, some 9⟩ ⟨[]⟩ = none ∧
     SetGpuCuboidBuffersBindGroup.render 3 5 ⟨fun _ => none, some 9⟩ ⟨[]⟩ = none ∧
     DrawVertexPulledCuboids.render 5 ⟨fun _ => none, some 9⟩ ⟨some ⟨2, 72⟩⟩ ⟨[]⟩ =
       none) ∧
    ((SetGpuTransformBufferBindGroup.render 2 5
        ⟨fun _ => some ⟨⟨1, 8, 2⟩⟩, some 9⟩ ⟨[]⟩).isSome ∧
     (SetGpuCuboidBuffersBindGroup.render 3 5
        ⟨fun _ => some ⟨⟨1, 8, 2⟩⟩, some 9⟩ ⟨[]⟩).isSome ∧
     (DrawVertexPulledCuboids.render 5
        ⟨fun _ => some ⟨⟨1, 8, 2⟩⟩, some 9⟩ ⟨some ⟨2, 72⟩⟩ ⟨[]⟩).isSome) :=
  ⟨(bufferCache_lookup_unwraps ⟨fun _ => none, some 9⟩ ⟨some ⟨2, 72⟩⟩ 5 ⟨[]⟩ 2 3).1
     rfl,
   (bufferCache_lookup_unwraps ⟨fun _ => some ⟨⟨1, 8, 2⟩⟩, some 9⟩ ⟨some ⟨2, 72⟩⟩
     5 ⟨[]⟩ 2 3).2 ⟨⟨1, 8, 2⟩⟩ 9 ⟨2, 72⟩ rfl rfl rfl⟩

/-- C6: `ViewMeta` and `ClippingPlanesMeta` default to an unpopulated
(`none`) bind group; the commands reading them panic (no result, never a
recoverable `Failure`) when the value is unpopulated, and under the
precondition that the metas were populated this frame the panic branch is
unreachable. -/
theorem meta_unwrap_behavior :
    ViewMeta.default.cuboids_view_bind_group = none ∧
    ClippingPlanesMeta.default.bind_group = none ∧
    (∀ (I : Nat) (view_meta : ViewMeta)
        (view_query : Entity → Option ViewUniformOffset) (view : Entity)
        (pass : TrackedRenderPass) (vuo : ViewUniformOffset),
      view_query view = some vuo →
      view_meta.cuboids_view_bind_group = none →
      SetCuboidsViewBindGroup.render I view_meta view_query view pass = none) ∧
    (∀ (I : Nat) (clipping_meta : ClippingPlanesMeta) (pass : TrackedRenderPass),
      clipping_meta.bind_group = none →
      SetClippingPlanesBindGroup.render I clipping_meta pass = none) ∧
    (∀ (I : Nat) (view_meta : ViewMeta)
        (view_query : Entity → Option ViewUniformOffset) (view : Entity)
        (pass : TrackedRenderPass) (vuo : ViewUniformOffset) (bg : BindGroup),
      view_query view = some vuo →
      view_meta.cuboids_view_bind_group = some bg →
      (SetCuboidsViewBindGroup.render I view_meta view_query view pass).isSome) ∧
    (∀ (I : Nat) (clipping_meta : ClippingPlanesMeta) (pass : TrackedRenderPass)
        (bg : BindGroup),
      clipping_meta.bind_group = some bg →
      (SetClippingPlanesBindGroup.render I clipping_meta pass).isSome) := by
  refine ⟨rfl, rfl, ?_, ?_, ?_, ?_⟩
  · intro I view_meta view_query view pass vuo hvq hbg
    simp [SetCuboidsViewBindGroup.render, hvq, hbg]
  · intro I clipping_meta pass hbg
    simp [SetClippingPlanesBindGroup.render, hbg]
  · intro I view_meta view_query view pass vuo bg hvq hbg
    simp [SetCuboidsViewBindGroup.render, hvq, hbg]
  · intro I clipping_meta pass bg hbg
    simp [SetClippingPlanesBindGroup.render, hbg]

/-- Witness for C6: unpopulated metas make both commands panic at a concrete
input; populated metas make neither panic. -/
theorem meta_unwrap_behavior_witness :
    SetCuboidsViewBindGroup.render 0 ⟨none⟩ (fun _ => some ⟨64⟩) 0 ⟨[]⟩ = none ∧
    SetClippingPlanesBindGroup.render 1 ⟨none⟩ ⟨[]⟩ = none ∧
    (SetCuboidsViewBindGroup.render 0 ⟨some 10⟩ (fun _ => some ⟨64⟩) 0 ⟨[]⟩).isSome ∧
    (SetClippingPlanesBindGroup.render 1 ⟨some 11⟩ ⟨[]⟩).isSome :=
  ⟨meta_unwrap_behavior.2.2.1 0 ⟨none⟩ (fun _ => some ⟨64⟩) 0 ⟨[]⟩ ⟨64⟩ rfl rfl,
   meta_unwrap_behavior.2.2.2.1 1 ⟨none⟩ ⟨[]⟩ rfl,
   meta_unwrap_behavior.2.2.2.2.1 0 ⟨some 10⟩ (fun _ => some ⟨64⟩) 0 ⟨[]⟩ ⟨64⟩ 10
     rfl rfl,
   meta_unwrap_behavior.2.2.2.2.2 1 ⟨some 11⟩ ⟨[]⟩ 11 rfl⟩

/-- C7: for a drawn entity with a prepared cache entry,
`SetGpuTransformBufferBindGroup` binds the shared transform-buffer bind
group with exactly one dynamic offset, the `transform_index` stored in that
entity's cache entry. -/
theorem setGpuTransformBufferBindGroup_offset (I : Nat) (item : Entity)
    (buffer_cache : BufferCache) (pass : TrackedRenderPass)
    (entry : BufferCacheEntry) (tbg : BindGroup)
    (hentry : buffer_cache.get item = some entry)
    (htbg : buffer_cache.transform_buffer_bind_group = some tbg) :
    SetGpuTransformBufferBindGroup.render I item buffer_cache pass =
      some (pass.push (.setBindGroup I tbg [entry.buffers.transform_index]),
        .Success) := by
  simp [SetGpuTransformBufferBindGroup.render, hentry, htbg]

/-- Witness for C7: a concrete entry with transform index 42 yields a bind
at slot 2 with the single dynamic offset 42. -/
theorem setGpuTransformBufferBindGroup_offset_witness :
    SetGpuTransformBufferBindGroup.render 2 5
      ⟨fun _ => some ⟨⟨42, 8, 1⟩⟩, some 9⟩ ⟨[]⟩ =
      some (⟨[.setBindGroup 2 9 [42]]⟩, .Success) :=
  setGpuTransformBufferBindGroup_offset 2 5 ⟨fun _ => some ⟨⟨42, 8, 1⟩⟩, some 9⟩
    ⟨[]⟩ ⟨⟨42, 8, 1⟩⟩ 9 rfl rfl

/-- C8: `SetCuboidsViewBindGroup` binds with exactly one dynamic offset (the
view's uniform offset), `SetClippingPlanesBindGroup` binds with an empty
dynamic-offset list, and `SetGpuCuboidBuffersBindGroup` binds the entity's
instance-buffer bind group with an empty dynamic-offset list. -/
theorem bind_group_dynamic_offsets :
    (∀ (I : Nat) (view_meta : ViewMeta)
        (view_query : Entity → Option ViewUniformOffset) (view : Entity)
        (pass : TrackedRenderPass) (vuo : ViewUniformOffset) (bg : BindGroup),
      view_query view = some vuo →
      view_meta.cuboids_view_bind_group = some bg →
      SetCuboidsViewBindGroup.render I view_meta view_query view pass =
        some (pass.push (.setBindGroup I bg [vuo.offset]), .Success)) ∧
    (∀ (I : Nat) (clipping_meta : ClippingPlanesMeta) (pass : TrackedRenderPass)
        (bg : BindGroup),
      clipping_meta.bind_group = some bg →
      SetClippingPlanesBindGroup.render I clipping_meta pass =
        some (pass.push (.setBindGroup I bg []), .Success)) ∧
    (∀ (I : Nat) (item : Entity) (buffer_cache : BufferCache)
        (pass : TrackedRenderPass) (entry : BufferCacheEntry),
      buffer_cache.get item = some entry →
      SetGpuCuboidBuffersBindGroup.render I item buffer_cache pass =
        some (pass.push
          (.setBindGroup I entry.buffers.instance_buffer_bind_group []),
          .Success)) := by
  refine ⟨?_, ?_, ?_⟩
  · intro I view_meta view_query view pass vuo bg hvq hbg
    simp [SetCuboidsViewBindGroup.render, hvq, hbg]
  · intro I clipping_meta pass bg hbg
    simp [SetClippingPlanesBindGroup.render, hbg]
  · intro I item buffer_cache pass entry hentry
    simp [SetGpuCuboidBuffersBindGroup.render, hentry]

/-- Witness for C8: concrete binds showing offset lists `[64]`, `[]` and
`[]` respectively. -/
theorem bind_group_dynamic_offsets_witness :
    SetCuboidsViewBindGroup.render 0 ⟨some 10⟩ (fun _ => some ⟨64⟩) 0 ⟨[]⟩ =
      some (⟨[.setBindGroup 0 10 [64]]⟩, .Success) ∧
    SetClippingPlanesBindGroup.render 1 ⟨some 11⟩ ⟨[]⟩ =
      some (⟨[.setBindGroup 1 11 []]⟩, .Success) ∧
    SetGpuCuboidBuffersBindGroup.render 3 5 ⟨fun _ => some ⟨⟨42, 8, 1⟩⟩, some 9⟩
      ⟨[]⟩ = some (⟨[.setBindGroup 3 8 []]⟩, .Success) :=
  ⟨bind_group_dynamic_offsets.1 0 ⟨some 10⟩ (fun _ => some ⟨64⟩) 0 ⟨[]⟩ ⟨64⟩ 10
     rfl rfl,
   bind_group_dynamic_offsets.2.1 1 ⟨some 11⟩ ⟨[]⟩ 11 rfl,
   bind_group_dynamic_offsets.2.2 3 5 ⟨fun _ => some ⟨⟨42, 8, 1⟩⟩, some 9⟩ ⟨[]⟩
     ⟨⟨42, 8, 1⟩⟩ rfl⟩

/-- C9: among the six commands of the chain, only `SetCuboidsPipeline` can
return `Failure`: each of the other five returns `Success` on every
execution path on which it returns at all, and there is an input on which
`SetCuboidsPipeline` does return `Failure`. -/
theorem only_pipeline_can_fail :
    (∀ (I : Nat) (view_meta : ViewMeta)
        (view_query : Entity → Option ViewUniformOffset) (view : Entity)
        (pass : TrackedRenderPass) (out : TrackedRenderPass × RenderCommandResult),
      SetCuboidsViewBindGroup.render I view_meta view_query view pass = some out →
      out.2 = RenderCommandResult.Success) ∧
    (∀ (I : Nat) (clipping_meta : ClippingPlanesMeta) (pass : TrackedRenderPass)
        (out : TrackedRenderPass × RenderCommandResult),
      SetClippingPlanesBindGroup.render I clipping_meta pass = some out →
      out.2 = RenderCommandResult.Success) ∧
    (∀ (I : Nat) (item : Entity) (buffer_cache : BufferCache)
        (pass : TrackedRenderPass) (out : TrackedRenderPass × RenderCommandResult),
      SetGpuTransformBufferBindGroup.render I item buffer_cache pass = some out →
      out.2 = RenderCommandResult.Success) ∧
    (∀ (I : Nat) (item : Entity) (buffer_cache : BufferCache)
        (pass : TrackedRenderPass) (out : TrackedRenderPass × RenderCommandResult),
      SetGpuCuboidBuffersBindGroup.render I item buffer_cache pass = some out →
      out.2 = RenderCommandResult.Success) ∧
    (∀ (item : Entity) (buffer_cache : BufferCache)
        (index_buffer : CuboidsIndexBuffer) (pass : TrackedRenderPass)
        (out : TrackedRenderPass × RenderCommandResult),
      DrawVertexPulledCuboids.render item buffer_cache index_buffer pass =
        some out →
      out.2 = RenderCommandResult.Success) ∧
    (∃ (pipeline_cache : PipelineCache) (cuboids_pipeline : CuboidsPipeline)
        (pass : TrackedRenderPass),
      SetCuboidsPipeline.render pipeline_cache cuboids_pipeline pass =
        some (pass, RenderCommandResult.Failure)) := by
  refine ⟨?_, ?_, ?_, ?_, ?_, ⟨⟨fun _ => none⟩, ⟨0⟩, ⟨[]⟩, rfl⟩⟩
  · intro I view_meta view_query view pass out h
    simp only [SetCuboidsViewBindGroup.render] at h
    split at h
    · exact Option.noConfusion h
    · split at h
      · exact Option.noConfusion h
      · injection h with h2
        subst h2
        rfl
  · intro I clipping_meta pass out h
    simp only [SetClippingPlanesBindGroup.render] at h
    split at h
    · exact Option.noConfusion h
    · injection h with h2
      subst h2
      rfl
  · intro I item buffer_cache pass out h
    simp only [SetGpuTransformBufferBindGroup.render] at h
    split at h
    · exact Option.noConfusion h
    · split at h
      · exact Option.noConfusion h
      · injection h with h2
        subst h2
        rfl
  · intro I item buffer_cache pass out h
    simp only [SetGpuCuboidBuffersBindGroup.render] at h
    split at h
    · exact Option.noConfusion h
    · injection h with h2
      subst h2
      rfl
  · intro item buffer_cache index_buffer pass out h
    simp only [DrawVertexPulledCuboids.render] at h
    split at h
    · exact Option.noConfusion h
    · split at h
      · exact Option.noConfusion h
      · injection h with h2
        subst h2
        rfl

/-- Witness for C9: concrete returning executions of the five non-pipeline
commands all produce `Success`. -/
theorem only_pipeline_can_fail_witness :
    ((TrackedRenderPass.mk [.setBindGroup 0 10 [64]],
        RenderCommandResult.Success).2 = RenderCommandResult.Success) ∧
    ((TrackedRenderPass.mk [.setBindGroup 1 11 []],
        RenderCommandResult.Success).2 = RenderCommandResult.Success) ∧
    ((TrackedRenderPass.mk [.setBindGroup 2 9 [42]],
        RenderCommandResult.Success).2 = RenderCommandResult.Success) ∧
    ((TrackedRenderPass.mk [.setBindGroup 3 8 []],
        RenderCommandResult.Success).2 = RenderCommandResult.Success) ∧
    ((TrackedRenderPass.mk [.setIndexBuffer ⟨2, 0, 72⟩ 0 .Uint32,
        .drawIndexed 0 36 0 0 1],
        RenderCommandResult.Success).2 = RenderCommandResult.Success) :=
  ⟨only_pipeline_can_fail.1 0 ⟨some 10⟩ (fun _ => some ⟨64⟩) 0 ⟨[]⟩
     (⟨[.setBindGroup 0 10 [64]]⟩, .Success) rfl,
   only_pipeline_can_fail.2.1 1 ⟨some 11⟩ ⟨[]⟩
     (⟨[.setBindGroup 1 11 []]⟩, .Success) rfl,
   only_pipeline_can_fail.2.2.1 2 5 ⟨fun _ => some ⟨⟨42, 9, 1⟩⟩, some 9⟩ ⟨[]⟩
     (⟨[.setBindGroup 2 9 [42]]⟩, .Success) rfl,
   only_pipeline_can_fail.2.2.2.1 3 5 ⟨fun _ => some ⟨⟨42, 8, 1⟩⟩, some 9⟩ ⟨[]⟩
     (⟨[.setBindGroup 3 8 []]⟩, .Success) rfl,
   only_pipeline_can_fail.2.2.2.2.1 5 ⟨fun _ => some ⟨⟨42, 8, 1⟩⟩, some 9⟩
     ⟨some ⟨2, 72⟩⟩ ⟨[]⟩
     (⟨[.setIndexBuffer ⟨2, 0, 72⟩ 0 .Uint32, .drawIndexed 0 36 0 0 1]⟩, .Success)
     rfl⟩

/-- C10: when `SetCuboidsPipeline` returns `Failure` (pipeline not yet
compiled), it performs no operation on the render pass: the returned pass is
exactly the input pass. -/
theorem setCuboidsPipeline_failure_atomic (pipeline_cache : PipelineCache)
    (cuboids_pipeline : CuboidsPipeline) (pass : TrackedRenderPass)
    (h : pipeline_cache.get_render_pipeline cuboids_pipeline.pipeline_id = none) :
    SetCuboidsPipeline.render pipeline_cache cuboids_pipeline pass =
      some (pass, .Failure) := by
  simp [SetCuboidsPipeline.render, h]

/-- Witness for C10: a missing pipeline on a pass with one recorded
operation leaves that pass unchanged. -/
theorem setCuboidsPipeline_failure_atomic_witness :
    SetCuboidsPipeline.render ⟨fun _ => none⟩ ⟨3⟩ ⟨[.setBindGroup 0 10 [64]]⟩ =
      some (⟨[.setBindGroup 0 10 [64]]⟩, .Failure) :=
  setCuboidsPipeline_failure_atomic ⟨fun _ => none⟩ ⟨3⟩
    ⟨[.setBindGroup 0 10 [64]]⟩ rfl

end BevyAabbInstancing
